import Mathlib

/-!
Verification of the Smart-Task-Planner plan-generation core (`src/app.py`,
class `SmartTaskPlanner`) against its natural-language specification.

The Python code is shallowly embedded:
* JSON values (the results of `json.loads`) are the inductive `Json`;
* Python exceptions are the error type `PyErr`, fallible code returns
  `Except PyErr _`;
* the OpenAI client is abstracted as `Option (Except PyErr String)` -- `none`
  when no client is configured (`OPENAI_API_KEY` missing), otherwise the raw
  text the single `chat.completions.create` call of one `generate_plan`
  invocation would produce, or the transport error it would raise;
* `json.loads` itself is an external library routine and is abstracted as a
  parameter `jparse : String → Option Json` (`none` = `JSONDecodeError`);
* `uuid.uuid4()[:8]` and `datetime.now().isoformat()` are abstracted as the
  environment `GenEnv` holding the fresh id and timestamp of the call.

Everything else is translated directly from the source.
-/

set_option maxRecDepth 4000

namespace STPlanner

/-- JSON values as produced by `json.loads`. -/
inductive Json where
  | null : Json
  | bool : Bool → Json
  | num : Int → Json
  | str : String → Json
  | arr : List Json → Json
  | obj : List (String × Json) → Json

/-- The Python exceptions that can arise in the embedded code. -/
inductive PyErr where
  /-- an exception raised by the OpenAI transport (`client.chat.completions.create`) -/
  | transport : PyErr
  /-- `json.JSONDecodeError` from `json.loads` -/
  | jsonDecode : PyErr
  /-- `AttributeError` (e.g. `.get` or `.lower` on a value that lacks it) -/
  | attrErr : PyErr
  /-- `TypeError` (e.g. iterating a non-iterable) -/
  | typeErr : PyErr
  /-- `ValueError` (e.g. `int('')`) -/
  | valueErr : PyErr
  /-- `IndexError` (e.g. `[0]` on an empty list) -/
  | indexErr : PyErr
deriving DecidableEq

/-- A validated task dict as built by `_validate_tasks` / `_generate_fallback_plan`.
Field values other than `id` are arbitrary JSON values, as in the Python dicts. -/
structure Task where
  id : Nat
  name : Json
  description : Json
  duration : Json
  dependencies : Json
  priority : Json
  deliverables : Json
  risks : Json
  status : Json

/-- A plan dict as built by `generate_plan` / `_generate_fallback_plan`. -/
structure Plan where
  id : String
  goal : String
  timeframe : String
  tasks : List Task
  created_at : String
  total_tasks : Nat
  estimated_total_time : String

/-- The two process-wide lists `self.database` and `self.task_history`. -/
structure PlannerState where
  database : List Plan
  task_history : List Plan

/-- The per-call environment: the fresh `str(uuid.uuid4())[:8]` and
`datetime.now().isoformat()` values of one `generate_plan` invocation. -/
structure GenEnv where
  pid : String
  now : String

/-- Occurrence of `sub` anywhere in a character list (Python `sub in s` for a
non-empty needle). -/
def containsSub (sub : List Char) : List Char → Bool
  | [] => false
  | c :: t => sub.isPrefixOf (c :: t) || containsSub sub t

/-- Python `sub in s` for a non-empty needle. -/
def pyContains (s sub : String) : Bool := containsSub sub.data s.data

/-- Python `s.split()` (no separator): split on whitespace runs, no empty parts. -/
def pyWsSplit (s : String) : List (List Char) :=
  (s.data.splitOnP Char.isWhitespace).filter (fun t => !t.isEmpty)

/-- Python `str.lower()` (ASCII case mapping). -/
def pyLower (s : String) : String := String.mk (s.data.map Char.toLower)

/-- The characters after the first occurrence of `sep`, when `sep` occurs:
Python `s.split(sep)[1:]` rejoined, i.e. the suffix past the first match. -/
def dropThroughFirst (sep : List Char) : List Char → Option (List Char)
  | [] => none
  | c :: t =>
    if sep.isPrefixOf (c :: t) then some ((c :: t).drop sep.length)
    else dropThroughFirst sep t

/-- The characters before the first occurrence of `sep` (all of them when
`sep` does not occur): Python `s.split(sep)[0]`. -/
def takeUntilFirst (sep : List Char) : List Char → List Char
  | [] => []
  | c :: t =>
    if sep.isPrefixOf (c :: t) then []
    else c :: takeUntilFirst sep t

/-- Python `str.strip()`: drop whitespace from both ends. -/
def pyStrip (l : List Char) : List Char :=
  ((l.dropWhile Char.isWhitespace).reverse.dropWhile Char.isWhitespace).reverse

/-- The numeric value of a list of decimal digit characters, read left to right
(`int` applied to the joined digits). -/
def digitsToNat (cs : List Char) : Nat :=
  cs.foldl (fun n c => 10 * n + (c.toNat - 48)) 0

/-- Python `dict.get(k)` on the underlying key-value list: the value of the
first matching key, if present. -/
def lookupKey (kvs : List (String × Json)) (k : String) : Option Json :=
  (kvs.find? (fun kv => kv.1 == k)).map (fun kv => kv.2)

/-- Python iteration (`for x in v`): lists yield elements, dicts yield keys,
strings yield one-character strings, everything else raises `TypeError`. -/
def pyIter : Json → Except PyErr (List Json)
  | Json.arr xs => Except.ok xs
  | Json.obj kvs => Except.ok (kvs.map (fun kv => Json.str kv.1))
  | Json.str s => Except.ok (s.data.map (fun c => Json.str c.toString))
  | _ => Except.error PyErr.typeErr

/-- The fenced-block markers of `_generate_tasks_with_llm`. -/
def fenceJson : String := "```json"

/-- The generic fenced-block marker. -/
def fence : String := "```"

/-- Lines 101-104 of `app.py`: select the text handed to `json.loads`.
`result.split("```json")[1].split("```")[0].strip()` when `"```json" in result`,
else `result.split("```")[1].split("```")[0].strip()` when `"```" in result`,
else the raw text. `split(sep)[1]` is the segment after the first occurrence
of `sep` and before its next occurrence (`dropThroughFirst` then
`takeUntilFirst`; the `getD` default is unreachable because the guard
guarantees an occurrence), and `split(sep)[0]` is the segment before the
first occurrence (`takeUntilFirst`). -/
def extractJsonText (result : String) : String :=
  if pyContains result fenceJson then
    String.mk (pyStrip (takeUntilFirst fence.data
      (takeUntilFirst fenceJson.data
        ((dropThroughFirst fenceJson.data result.data).getD []))))
  else if pyContains result fence then
    String.mk (pyStrip (takeUntilFirst fence.data
      (takeUntilFirst fence.data
        ((dropThroughFirst fence.data result.data).getD []))))
  else result

/-- Lines 108-109 of `app.py`: `if isinstance(tasks, dict) and "tasks" in tasks:
tasks = tasks["tasks"]`. -/
def unwrapTasks (j : Json) : Json :=
  match j with
  | Json.obj kvs =>
    match lookupKey kvs "tasks" with
    | some v => v
    | none => j
  | _ => j

/-- One iteration of the `_validate_tasks` loop: build the validated dict for
the record at (1-based) position `i`. `task.get(...)` requires `task` to be a
dict; on any other value Python raises `AttributeError`. -/
def validateOne (i : Nat) (t : Json) : Except PyErr Task :=
  match t with
  | Json.obj kvs =>
    Except.ok {
      id := i,
      name := (lookupKey kvs "name").getD (Json.str ("Task " ++ toString i)),
      description := (lookupKey kvs "description").getD (Json.str "No description"),
      duration := (lookupKey kvs "duration").getD (Json.str "1 day"),
      dependencies := (lookupKey kvs "dependencies").getD (Json.str "None"),
      priority := (lookupKey kvs "priority").getD (Json.str "Medium"),
      deliverables := (lookupKey kvs "deliverables").getD (Json.str "Task completion"),
      risks := (lookupKey kvs "risks").getD (Json.str "None identified"),
      status := Json.str "pending" }
  | _ => Except.error PyErr.attrErr

/-- The `for i, task in enumerate(tasks, 1)` loop of `_validate_tasks`. -/
def validateList : Nat → List Json → Except PyErr (List Task)
  | _, [] => Except.ok []
  | i, t :: ts =>
    match validateOne i t with
    | Except.error e => Except.error e
    | Except.ok v =>
      match validateList (i + 1) ts with
      | Except.error e => Except.error e
      | Except.ok rest => Except.ok (v :: rest)

/-- `_validate_tasks` (lines 113-131): iterate the value Python-style and
validate each element. -/
def validateTasks (ts : Json) : Except PyErr (List Task) :=
  match pyIter ts with
  | Except.error e => Except.error e
  | Except.ok xs => validateList 1 xs

/-- `int(''.join(filter(str.isdigit, d.split()[0])))` for an already lowered
duration string `d`: the concatenation of every digit character of the first
whitespace token. Raises `IndexError` when there is no token and `ValueError`
(`int('')`) when the token has no digits. -/
def firstTokenDigits (d : String) : Except PyErr Nat :=
  match pyWsSplit d with
  | [] => Except.error PyErr.indexErr
  | tok :: _ =>
    let ds := tok.filter Char.isDigit
    if ds.isEmpty then Except.error PyErr.valueErr
    else Except.ok (digitsToNat ds)

/-- One iteration of the `_calculate_total_time` loop. Validated tasks always
carry a `duration` key, so `task.get("duration", "1 day")` is the task's
duration field; `.lower()` requires it to be a string. -/
def taskHours (t : Task) : Except PyErr Nat :=
  match t.duration with
  | Json.str s =>
    let d := pyLower s
    if pyContains d "hour" then firstTokenDigits d
    else if pyContains d "day" then
      match firstTokenDigits d with
      | Except.error e => Except.error e
      | Except.ok n => Except.ok (n * 8)
    else if pyContains d "week" then
      match firstTokenDigits d with
      | Except.error e => Except.error e
      | Except.ok n => Except.ok (n * 40)
    else Except.ok 0
  | _ => Except.error PyErr.attrErr

/-- The `total_hours` accumulation loop of `_calculate_total_time`. -/
def sumHours : List Task → Except PyErr Nat
  | [] => Except.ok 0
  | t :: ts =>
    match taskHours t with
    | Except.error e => Except.error e
    | Except.ok h =>
      match sumHours ts with
      | Except.error e => Except.error e
      | Except.ok rest => Except.ok (h + rest)

/-- Lines 150-155 of `app.py`: bucket a summed hour total into a display string. -/
def renderTotal (h : Nat) : String :=
  if h < 8 then toString h ++ " hours"
  else if h < 40 then toString (h / 8) ++ " days"
  else toString (h / 40) ++ " weeks"

/-- `_calculate_total_time` (lines 133-155). -/
def calculateTotalTime (tasks : List Task) : Except PyErr String :=
  match sumHours tasks with
  | Except.error e => Except.error e
  | Except.ok h => Except.ok (renderTotal h)

/-- Lines 98-111 of `app.py` minus the transport call: select the JSON text,
parse it with the (abstracted) `json.loads`, unwrap a `"tasks"` key, validate. -/
def generateTasksFromText (jparse : String → Option Json) (raw : String) :
    Except PyErr (List Task) :=
  match jparse (extractJsonText raw) with
  | none => Except.error PyErr.jsonDecode
  | some j => validateTasks (unwrapTasks j)

/-- The three fixed tasks of `_generate_fallback_plan` (lines 159-193). -/
def fallbackTasks (goal : String) : List Task :=
  [ { id := 1,
      name := Json.str "Planning & Research",
      description := Json.str ("Research and plan: " ++ goal),
      duration := Json.str "2 days",
      dependencies := Json.str "None",
      priority := Json.str "High",
      deliverables := Json.str "Project plan",
      risks := Json.str "Insufficient info",
      status := Json.str "pending" },
    { id := 2,
      name := Json.str "Setup",
      description := Json.str "Environment and tools setup",
      duration := Json.str "1 day",
      dependencies := Json.str "Planning & Research",
      priority := Json.str "High",
      deliverables := Json.str "Ready environment",
      risks := Json.str "Technical issues",
      status := Json.str "pending" },
    { id := 3,
      name := Json.str "Implementation",
      description := Json.str "Core development work",
      duration := Json.str "1 week",
      dependencies := Json.str "Setup",
      priority := Json.str "High",
      deliverables := Json.str "Working prototype",
      risks := Json.str "Complexity",
      status := Json.str "pending" } ]

/-- `_generate_fallback_plan` (lines 157-203): the fixed plan; note it does not
touch `self.database` or `self.task_history`. -/
def fallbackPlan (env : GenEnv) (goal timeframe : String) : Plan :=
  { id := env.pid,
    goal := goal,
    timeframe := timeframe,
    tasks := fallbackTasks goal,
    created_at := env.now,
    total_tasks := (fallbackTasks goal).length,
    estimated_total_time := timeframe }

/-- The body of the `try:` block of `generate_plan` (lines 44-55): obtain the
raw completion text (or the transport error), run it through
`_generate_tasks_with_llm`'s parsing/validation, compute the time estimate and
assemble the plan dict. Any error escapes to the `except` handler. -/
def planAttempt (jparse : String → Option Json) (resp : Except PyErr String)
    (env : GenEnv) (goal timeframe : String) : Except PyErr Plan :=
  match resp with
  | Except.error e => Except.error e
  | Except.ok raw =>
    match generateTasksFromText jparse raw with
    | Except.error e => Except.error e
    | Except.ok tasks =>
      match calculateTotalTime tasks with
      | Except.error e => Except.error e
      | Except.ok ett =>
        Except.ok {
          id := env.pid,
          goal := goal,
          timeframe := timeframe,
          tasks := tasks,
          created_at := env.now,
          total_tasks := tasks.length,
          estimated_total_time := ett }

/-- `generate_plan` (lines 37-64). `client = none` is the
`if not self.client` branch; otherwise the `try` body runs and on success the
plan is appended to `self.database` and `self.task_history`, while on any
exception the `except Exception` handler returns the fallback plan, leaving
both lists untouched. Returns the plan together with the updated state. -/
def generate_plan (jparse : String → Option Json)
    (client : Option (Except PyErr String)) (env : GenEnv) (st : PlannerState)
    (goal timeframe context : String) : Plan × PlannerState :=
  match client with
  | none => (fallbackPlan env goal timeframe, st)
  | some resp =>
    match planAttempt jparse resp env goal timeframe with
    | Except.ok plan =>
      (plan, { database := st.database ++ [plan],
               task_history := st.task_history ++ [plan] })
    | Except.error _ => (fallbackPlan env goal timeframe, st)

/-- Well-formedness of a plan as the spec states it: the task count matches and
the ids are the contiguous range starting at 1. -/
def planWF (p : Plan) : Prop :=
  p.total_tasks = p.tasks.length ∧
  p.tasks.map Task.id = List.range' 1 p.tasks.length

/-! Spec-side reference definitions.

These follow the wording of the specification (not the source); they exist to
be compared against the code embedding above. -/

/-- TaskValidator.normalize as §4.3 of the spec words it: for the record at
1-based position `i` produce a Task with `id = i`, each field the record's
value or its documented default, and status unconditionally `"pending"`. -/
def normSpec : Nat → List (List (String × Json)) → List Task
  | _, [] => []
  | i, r :: rs =>
    { id := i,
      name := (lookupKey r "name").getD (Json.str ("Task " ++ toString i)),
      description := (lookupKey r "description").getD (Json.str "No description"),
      duration := (lookupKey r "duration").getD (Json.str "1 day"),
      dependencies := (lookupKey r "dependencies").getD (Json.str "None"),
      priority := (lookupKey r "priority").getD (Json.str "Medium"),
      deliverables := (lookupKey r "deliverables").getD (Json.str "Task completion"),
      risks := (lookupKey r "risks").getD (Json.str "None identified"),
      status := Json.str "pending" } :: normSpec (i + 1) rs

/-- The "leading run of digits" of a token, as §4.4 of the spec words it. -/
def leadingDigits (tok : List Char) : List Char := tok.takeWhile Char.isDigit

/-- DurationAggregator per-task hours exactly as the spec words it: lower-case
the duration; on a matching unit add the value of the leading digit run of the
first whitespace token (zero when there is none), weighted 1/8/40; strings
matching no unit contribute zero. -/
def specTaskHours (t : Task) : Nat :=
  match t.duration with
  | Json.str s =>
    let d := pyLower s
    let v := digitsToNat (leadingDigits ((pyWsSplit d).headD []))
    if pyContains d "hour" then v
    else if pyContains d "day" then v * 8
    else if pyContains d "week" then v * 40
    else 0
  | _ => 0

/-- DurationAggregator.total exactly as the spec words it (never fails). -/
def specTotalTime (tasks : List Task) : String :=
  renderTotal (tasks.foldl (fun acc t => acc + specTaskHours t) 0)

/-- Whether one of the three unit markers occurs in a (lowered) duration. -/
def hasUnit (d : String) : Bool :=
  pyContains d "hour" || pyContains d "day" || pyContains d "week"

/-- The hour weight of the first matching unit marker. -/
def unitMult (d : String) : Nat :=
  if pyContains d "hour" then 1 else if pyContains d "day" then 8 else 40

/-- Amended reference per-task hours: as `specTaskHours` but the extracted
value is the concatenation of all digit characters of the first whitespace
token, and a matching unit with no digit in that token (or no token at all, or
a non-string duration) is an error instead of a silent zero. -/
def specTaskHoursFixed (t : Task) : Except PyErr Nat :=
  match t.duration with
  | Json.str s =>
    let d := pyLower s
    if hasUnit d then
      match pyWsSplit d with
      | [] => Except.error PyErr.indexErr
      | tok :: _ =>
        let ds := tok.filter Char.isDigit
        if ds.isEmpty then Except.error PyErr.valueErr
        else Except.ok (digitsToNat ds * unitMult d)
    else Except.ok 0
  | _ => Except.error PyErr.attrErr

/-- Amended reference summation: a running accumulator over the tasks, as the
Python loop keeps `total_hours`. -/
def specSumFixed : Nat → List Task → Except PyErr Nat
  | acc, [] => Except.ok acc
  | acc, t :: ts =>
    match specTaskHoursFixed t with
    | Except.error e => Except.error e
    | Except.ok h => specSumFixed (acc + h) ts

/-- Amended reference DurationAggregator.total. -/
def specTotalTimeFixed (tasks : List Task) : Except PyErr String :=
  (specSumFixed 0 tasks).map renderTotal

/-- Whether a JSON value is an object (a "task-like object" in the spec's words). -/
def isObjB : Json → Bool
  | Json.obj _ => true
  | _ => false

/-- The spec's "sequence of task-like objects". -/
def isTaskSeq : Json → Bool
  | Json.arr xs => xs.all isObjB
  | _ => false

/-- The shapes on which the validation stage actually raises: an array with a
non-object element, a non-empty object (its keys are strings), a non-empty
string (its elements are characters), or a non-iterable scalar. -/
def badShape : Json → Bool
  | Json.arr xs => xs.any (fun x => !isObjB x)
  | Json.obj kvs => !kvs.isEmpty
  | Json.str s => !s.data.isEmpty
  | _ => true

/-- The task field selected by a raw-record key. -/
def taskField (t : Task) : String → Option Json
  | "name" => some t.name
  | "description" => some t.description
  | "duration" => some t.duration
  | "dependencies" => some t.dependencies
  | "priority" => some t.priority
  | "deliverables" => some t.deliverables
  | "risks" => some t.risks
  | _ => none

/-! Concrete fixtures for witnesses and counterexamples. -/

/-- A `json.loads` behaviour that accepts nothing. -/
def jp0 : String → Option Json := fun _ => none

/-- A `json.loads` behaviour that parses the text `{}` to the empty object. -/
def jpObj : String → Option Json :=
  fun s => if s = "\x7b\x7d" then some (Json.obj []) else none

/-- A `json.loads` behaviour that parses the text `[{}]` to a one-element array
holding the empty object. -/
def jpArr : String → Option Json :=
  fun s => if s = "[\x7b\x7d]" then some (Json.arr [Json.obj []]) else none

/-- A fixed call environment. -/
def env0 : GenEnv := { pid := "pid0", now := "t0" }

/-- The empty planner state. -/
def st0 : PlannerState := { database := [], task_history := [] }

/-- A task whose duration is the given string and whose other fields are fixed. -/
def mkTaskD (d : String) : Task :=
  { id := 1, name := Json.str "n", description := Json.str "d",
    duration := Json.str d, dependencies := Json.str "None",
    priority := Json.str "Medium", deliverables := Json.str "x",
    risks := Json.str "r", status := Json.str "pending" }

/-- The task `_validate_tasks` builds from an empty record at position 1. -/
def taskDefault1 : Task :=
  { id := 1, name := Json.str "Task 1", description := Json.str "No description",
    duration := Json.str "1 day", dependencies := Json.str "None",
    priority := Json.str "Medium", deliverables := Json.str "Task completion",
    risks := Json.str "None identified", status := Json.str "pending" }

/-- The plan a fully successful `generate_plan` call builds from the raw
response `[{}]` under `jpArr` and `env0`. -/
def planW : Plan :=
  { id := "pid0", goal := "g", timeframe := "2 weeks", tasks := [taskDefault1],
    created_at := "t0", total_tasks := 1, estimated_total_time := "1 days" }

/-! Helper lemmas. -/

theorem validateOne_id (i : Nat) (t : Json) (v : Task)
    (h : validateOne i t = Except.ok v) : v.id = i := by
  cases t <;> simp [validateOne] at h
  rw [← h]

theorem validateList_ok_ids (xs : List Json) : ∀ (i : Nat) (ts : List Task),
    validateList i xs = Except.ok ts → ts.map Task.id = List.range' i xs.length := by
  induction xs with
  | nil =>
    intro i ts h
    simp [validateList] at h
    simp [← h]
  | cons x xs ih =>
    intro i ts h
    cases hx : validateOne i x with
    | error e => simp [validateList, hx] at h
    | ok v =>
      cases hR : validateList (i + 1) xs with
      | error e => simp [validateList, hx, hR] at h
      | ok rest =>
        simp [validateList, hx, hR] at h
        rw [← h]
        have h1 : v.id = i := validateOne_id i x v hx
        have h2 := ih (i + 1) rest hR
        simp [List.range'_succ, h1, h2]

theorem validateTasks_ok_ids (j : Json) (ts : List Task)
    (h : validateTasks j = Except.ok ts) :
    ts.map Task.id = List.range' 1 ts.length := by
  unfold validateTasks at h
  cases hI : pyIter j with
  | error e => rw [hI] at h; exact Except.noConfusion h
  | ok xs =>
    rw [hI] at h
    have h2 := validateList_ok_ids xs 1 ts h
    have hlen : ts.length = xs.length := by
      have := congrArg List.length h2
      simpa using this
    rw [hlen]
    exact h2

theorem planAttempt_ok_wf (jparse : String → Option Json)
    (resp : Except PyErr String) (env : GenEnv) (goal tf : String) (p : Plan)
    (h : planAttempt jparse resp env goal tf = Except.ok p) : planWF p := by
  cases resp with
  | error e => exact Except.noConfusion h
  | ok raw =>
    have h1 : (match generateTasksFromText jparse raw with
        | Except.error e => (Except.error e : Except PyErr Plan)
        | Except.ok tasks =>
          match calculateTotalTime tasks with
          | Except.error e => (Except.error e : Except PyErr Plan)
          | Except.ok ett =>
            Except.ok (Plan.mk env.pid goal tf tasks env.now tasks.length ett))
        = Except.ok p := h
    cases hg : generateTasksFromText jparse raw with
    | error e => rw [hg] at h1; exact Except.noConfusion h1
    | ok tasks =>
      rw [hg] at h1
      have h2 : (match calculateTotalTime tasks with
          | Except.error e => (Except.error e : Except PyErr Plan)
          | Except.ok ett =>
            Except.ok (Plan.mk env.pid goal tf tasks env.now tasks.length ett))
          = Except.ok p := h1
      cases hc : calculateTotalTime tasks with
      | error e => rw [hc] at h2; exact Except.noConfusion h2
      | ok ett =>
        rw [hc] at h2
        have hp := Except.ok.inj h2
        subst hp
        refine ⟨rfl, ?_⟩
        unfold generateTasksFromText at hg
        cases hp2 : jparse (extractJsonText raw) with
        | none => rw [hp2] at hg; exact Except.noConfusion hg
        | some jv =>
          rw [hp2] at hg
          exact validateTasks_ok_ids (unwrapTasks jv) tasks hg

theorem generate_plan_wf (jparse : String → Option Json)
    (client : Option (Except PyErr String)) (env : GenEnv) (st : PlannerState)
    (goal tf ctx : String) :
    planWF (generate_plan jparse client env st goal tf ctx).1 := by
  cases client with
  | none => exact ⟨rfl, rfl⟩
  | some resp =>
    cases h : planAttempt jparse resp env goal tf with
    | ok p =>
      have hg : (generate_plan jparse (some resp) env st goal tf ctx).1 = p := by
        simp [generate_plan, h]
      rw [hg]
      exact planAttempt_ok_wf jparse resp env goal tf p h
    | error e =>
      have hg : (generate_plan jparse (some resp) env st goal tf ctx).1
          = fallbackPlan env goal tf := by
        simp [generate_plan, h]
      rw [hg]
      exact ⟨rfl, rfl⟩

/-! Claim theorems. -/

/-- C1: for every goal, timeframe and context, every client behaviour
(including a transport error) and every parse behaviour on every raw text,
`generate_plan` returns a complete well-formed plan; whenever the downstream
chain (transport, JSON extraction/parsing, validation, duration aggregation)
fails with any error, the error is caught inside `generate_plan` and the
deterministic fallback plan is returned instead of propagating. -/
theorem generate_plan_catches_all (jparse : String → Option Json)
    (client : Option (Except PyErr String)) (env : GenEnv) (st : PlannerState)
    (goal tf ctx : String) :
    planWF (generate_plan jparse client env st goal tf ctx).1 ∧
    (∀ (resp : Except PyErr String) (e : PyErr), client = some resp →
      planAttempt jparse resp env goal tf = Except.error e →
      (generate_plan jparse client env st goal tf ctx).1 = fallbackPlan env goal tf) := by
  refine ⟨generate_plan_wf jparse client env st goal tf ctx, fun resp e hc ha => ?_⟩
  subst hc
  simp [generate_plan, ha]

/-- Witness for C1: with a parser that accepts nothing, the chain fails with a
parse error on the raw text `"no fences"` and the call returns the fallback
plan. -/
theorem generate_plan_catches_all_w :
    (generate_plan jp0 (some (Except.ok "no fences")) env0 st0 "g" "2 weeks" "").1
      = fallbackPlan env0 "g" "2 weeks" :=
  (generate_plan_catches_all jp0 (some (Except.ok "no fences")) env0 st0
      "g" "2 weeks" "").2 (Except.ok "no fences") PyErr.jsonDecode rfl rfl

/-- C2: every plan returned by `generate_plan` — reasoning path and fallback
path alike — has `total_tasks` equal to the length of its task sequence, and
its task ids, read in order, are exactly the contiguous range
`1..total_tasks`. -/
theorem generate_plan_task_ids_contiguous (jparse : String → Option Json)
    (client : Option (Except PyErr String)) (env : GenEnv) (st : PlannerState)
    (goal tf ctx : String) :
    (generate_plan jparse client env st goal tf ctx).1.total_tasks
        = (generate_plan jparse client env st goal tf ctx).1.tasks.length ∧
    (generate_plan jparse client env st goal tf ctx).1.tasks.map Task.id
        = List.range' 1 (generate_plan jparse client env st goal tf ctx).1.total_tasks := by
  obtain ⟨h1, h2⟩ := generate_plan_wf jparse client env st goal tf ctx
  exact ⟨h1, by rw [h1]; exact h2⟩

theorem validateList_objs (recs : List (List (String × Json))) : ∀ i : Nat,
    validateList i (recs.map Json.obj) = Except.ok (normSpec i recs) := by
  induction recs with
  | nil => intro i; rfl
  | cons r rs ih => intro i; simp [validateList, validateOne, normSpec, ih]

/-- C8: `_validate_tasks` never fails on a sequence of key-value records and
produces exactly the normalization the spec describes: for the record at
1-based position `i`, a task with `id = i`, each absent field replaced by its
documented default, present fields kept, and status `"pending"`
(`normSpec` is that description, written from the spec's words). -/
theorem validateTasks_normalizes_with_defaults
    (recs : List (List (String × Json))) :
    validateTasks (Json.arr (recs.map Json.obj)) = Except.ok (normSpec 1 recs) := by
  show validateList 1 (recs.map Json.obj) = Except.ok (normSpec 1 recs)
  exact validateList_objs recs 1

/-- C9: with no client configured, `generate_plan` always returns the fixed
3-task fallback plan: tasks named Planning & Research / Setup / Implementation
with durations 2 days / 1 day / 1 week, all High priority, dependency chain
None / Planning & Research / Setup, and `estimated_total_time` equal verbatim
to the input timeframe. -/
theorem generate_plan_no_client_fallback_shape (jparse : String → Option Json)
    (env : GenEnv) (st : PlannerState) (goal tf ctx : String) :
    (generate_plan jparse none env st goal tf ctx).1.tasks.map Task.name
        = [Json.str "Planning & Research", Json.str "Setup", Json.str "Implementation"] ∧
    (generate_plan jparse none env st goal tf ctx).1.tasks.map Task.duration
        = [Json.str "2 days", Json.str "1 day", Json.str "1 week"] ∧
    (generate_plan jparse none env st goal tf ctx).1.tasks.map Task.priority
        = [Json.str "High", Json.str "High", Json.str "High"] ∧
    (generate_plan jparse none env st goal tf ctx).1.tasks.map Task.dependencies
        = [Json.str "None", Json.str "Planning & Research", Json.str "Setup"] ∧
    (generate_plan jparse none env st goal tf ctx).1.total_tasks = 3 ∧
    (generate_plan jparse none env st goal tf ctx).1.estimated_total_time = tf :=
  ⟨rfl, rfl, rfl, rfl, rfl, rfl⟩

/-- C10: a key present in a raw record but bound to JSON null is kept as null
verbatim by `_validate_tasks` rather than replaced by the field's default;
defaulting happens only when the key is absent. -/
theorem present_null_field_kept (i : Nat) (kvs : List (String × Json)) (k : String)
    (hk : k ∈ ["name", "description", "duration", "dependencies", "priority",
               "deliverables", "risks"])
    (hv : lookupKey kvs k = some Json.null) :
    (validateOne i (Json.obj kvs)).map (fun t => taskField t k)
      = Except.ok (some Json.null) := by
  simp only [List.mem_cons, List.not_mem_nil, or_false] at hk
  rcases hk with rfl | rfl | rfl | rfl | rfl | rfl | rfl <;>
    simp [validateOne, taskField, hv, Except.map]

/-- Witness for C10: a record binding `"priority"` to null yields a task whose
priority is null, not `"Medium"`. -/
theorem present_null_field_kept_w :
    (validateOne 1 (Json.obj [("priority", Json.null)])).map
        (fun t => taskField t "priority") = Except.ok (some Json.null) :=
  present_null_field_kept 1 [("priority", Json.null)] "priority" (by decide) rfl

theorem firstTokenDigits_err (d : String)
    (hD : (((pyWsSplit d).headD []).filter Char.isDigit).isEmpty = true) :
    ∃ e, firstTokenDigits d = Except.error e := by
  unfold firstTokenDigits
  cases h : pyWsSplit d with
  | nil => exact ⟨PyErr.indexErr, rfl⟩
  | cons tok rest =>
    rw [h] at hD
    simp only [List.headD_cons] at hD
    exact ⟨PyErr.valueErr, by simp [hD]⟩

/-- Counterexample to C3: on the duration `"half a day"` — a matched unit
marker but no digit in the first token — `_calculate_total_time` raises
`ValueError` (`int('')`) instead of silently contributing zero. -/
theorem totalTime_unit_no_digit_raises_cex :
    calculateTotalTime [mkTaskD "half a day"] = Except.error PyErr.valueErr ∧
    Except.error PyErr.valueErr ≠ (Except.ok "0 hours" : Except PyErr String) :=
  ⟨rfl, fun h => Except.noConfusion h⟩

/-- C3 (amended): a duration string matching none of the three unit markers
contributes zero silently, but a string that matches a unit marker and whose
first whitespace token has no digit makes the aggregation raise an error —
`_calculate_total_time` can fail. -/
theorem taskHours_unit_digit_amended (t : Task) (s : String)
    (hd : t.duration = Json.str s) :
    (hasUnit (pyLower s) = false → taskHours t = Except.ok 0) ∧
    (hasUnit (pyLower s) = true →
      (((pyWsSplit (pyLower s)).headD []).filter Char.isDigit).isEmpty = true →
      ∃ e, taskHours t = Except.error e) := by
  cases t with
  | mk i nm dsc du dep pr del ri stt =>
    have hd' : du = Json.str s := hd
    subst hd'
    constructor
    · intro hU
      simp only [hasUnit, Bool.or_eq_false_iff] at hU
      obtain ⟨⟨h1, h2⟩, h3⟩ := hU
      simp [taskHours, h1, h2, h3]
    · intro hU hD
      obtain ⟨e, he⟩ := firstTokenDigits_err (pyLower s) hD
      by_cases h1 : pyContains (pyLower s) "hour" = true
      · exact ⟨e, by simp [taskHours, h1, he]⟩
      · by_cases h2 : pyContains (pyLower s) "day" = true
        · exact ⟨e, by simp [taskHours, h1, h2, he]⟩
        · have h3 : pyContains (pyLower s) "week" = true := by
            simp only [hasUnit, Bool.or_eq_true] at hU
            rcases hU with (h | h) | h
            · exact absurd h h1
            · exact absurd h h2
            · exact h
          exact ⟨e, by simp [taskHours, h1, h2, h3, he]⟩

/-- Witness for C3 (amended): `"half hour"` matches a unit, has no digit in
its first token, and makes the per-task aggregation raise. -/
theorem taskHours_unit_digit_amended_w :
    ∃ e, taskHours (mkTaskD "half hour") = Except.error e :=
  (taskHours_unit_digit_amended (mkTaskD "half hour") "half hour" rfl).2
    (by decide) (by decide)

/-- Counterexample to C4: a record with the unrecognized priority `"URGENT"`
is normalized to a task whose priority is `"URGENT"`, not `"Medium"`. -/
theorem priority_unrecognized_kept_cex :
    (validateOne 1 (Json.obj [("priority", Json.str "URGENT")])).map Task.priority
        = Except.ok (Json.str "URGENT") ∧
    Json.str "URGENT" ≠ Json.str "Medium" := by
  refine ⟨rfl, fun h => ?_⟩
  injection h with h'
  exact absurd h' (by decide)

/-- C4 (amended): normalization replaces the priority by `"Medium"` only when
the key is absent from the record; a present priority value is kept verbatim,
recognized or not. -/
theorem priority_default_only_when_absent (i : Nat) (kvs : List (String × Json)) :
    (validateOne i (Json.obj kvs)).map Task.priority
        = Except.ok ((lookupKey kvs "priority").getD (Json.str "Medium")) ∧
    ((validateOne i (Json.obj kvs)).map Task.priority = Except.ok (Json.str "Medium")
      ↔ (lookupKey kvs "priority" = none ∨
         lookupKey kvs "priority" = some (Json.str "Medium"))) := by
  refine ⟨rfl, ?_⟩
  cases h : lookupKey kvs "priority" with
  | none => simp [validateOne, h, Except.map]
  | some v => simp [validateOne, h, Except.map]

theorem validateOne_err_iff (i : Nat) (x : Json) :
    (∃ e, validateOne i x = Except.error e) ↔ isObjB x = false := by
  cases x <;> simp [validateOne, isObjB]

theorem validateList_err_iff (xs : List Json) : ∀ i : Nat,
    (∃ e, validateList i xs = Except.error e)
      ↔ xs.any (fun x => !isObjB x) = true := by
  induction xs with
  | nil => intro i; simp [validateList]
  | cons x xs ih =>
    intro i
    cases hx : validateOne i x with
    | error e =>
      have hob : isObjB x = false := (validateOne_err_iff i x).1 ⟨e, hx⟩
      constructor
      · intro _
        simp [List.any_cons, hob]
      · intro _
        exact ⟨e, by simp [validateList, hx]⟩
    | ok v =>
      have hob : isObjB x = true := by
        cases hbx : isObjB x
        · obtain ⟨e, he⟩ := (validateOne_err_iff i x).2 hbx
          rw [hx] at he
          exact Except.noConfusion he
        · rfl
      cases hR : validateList (i + 1) xs with
      | error e2 =>
        have hAny : xs.any (fun x => !isObjB x) = true := (ih (i + 1)).1 ⟨e2, hR⟩
        constructor
        · intro _
          simp [List.any_cons, hAny]
        · intro _
          exact ⟨e2, by simp [validateList, hx, hR]⟩
      | ok rest =>
        have hAny : xs.any (fun x => !isObjB x) = false := by
          cases hA : xs.any (fun x => !isObjB x)
          · rfl
          · obtain ⟨e, he⟩ := (ih (i + 1)).2 hA
            rw [hR] at he
            exact Except.noConfusion he
        constructor
        · rintro ⟨e, he⟩
          rw [show validateList i (x :: xs) = Except.ok (v :: rest) from by
            simp [validateList, hx, hR]] at he
          exact Except.noConfusion he
        · intro hcon
          simp [List.any_cons, hob, hAny] at hcon

theorem validateTasks_err_iff (j : Json) :
    (∃ e, validateTasks j = Except.error e) ↔ badShape j = true := by
  cases j with
  | null => simp [validateTasks, pyIter, badShape]
  | bool b => simp [validateTasks, pyIter, badShape]
  | num n => simp [validateTasks, pyIter, badShape]
  | str s =>
    cases hc : s.data with
    | nil => simp [validateTasks, pyIter, badShape, hc, validateList]
    | cons c cs =>
      simp [validateTasks, pyIter, badShape, hc, validateList, validateOne]
  | arr xs =>
    show (∃ e, validateList 1 xs = Except.error e)
      ↔ xs.any (fun x => !isObjB x) = true
    exact validateList_err_iff xs 1
  | obj kvs =>
    cases kvs with
    | nil => simp [validateTasks, pyIter, badShape, validateList]
    | cons kv rest =>
      simp [validateTasks, pyIter, badShape, validateList, validateOne]

/-- Counterexample to C5: the raw text `{}` parses to an empty object, which is
not a sequence of task-like objects, yet the pipeline returns an empty task
list with no `ParseError` — the failure condition claimed by C5 does not hold. -/
theorem extract_shape_mismatch_silent_cex :
    generateTasksFromText jpObj "\x7b\x7d" = Except.ok [] ∧
    jpObj (extractJsonText "\x7b\x7d") = some (Json.obj []) ∧
    isTaskSeq (unwrapTasks (Json.obj [])) = false :=
  ⟨rfl, rfl, rfl⟩

/-- C5 (amended): after fence selection and parsing, an object is unwrapped at
key `"tasks"` whenever the key is present regardless of the value's shape, and
the pipeline fails exactly when the selected text does not parse or the
unwrapped value has `badShape`: an array with a non-object element, a
non-empty object, a non-empty string, or a non-iterable scalar. An empty
object or empty array yields an empty task list with no error. -/
theorem extract_error_characterization (jparse : String → Option Json)
    (raw : String) :
    (∃ e, generateTasksFromText jparse raw = Except.error e) ↔
      (jparse (extractJsonText raw) = none ∨
        ∃ j, jparse (extractJsonText raw) = some j
          ∧ badShape (unwrapTasks j) = true) := by
  cases hp : jparse (extractJsonText raw) with
  | none =>
    constructor
    · intro _
      exact Or.inl rfl
    · intro _
      exact ⟨PyErr.jsonDecode, by simp [generateTasksFromText, hp]⟩
  | some j =>
    have hred : generateTasksFromText jparse raw = validateTasks (unwrapTasks j) := by
      simp [generateTasksFromText, hp]
    constructor
    · intro hE
      refine Or.inr ⟨j, rfl, ?_⟩
      apply (validateTasks_err_iff (unwrapTasks j)).1
      obtain ⟨e, he⟩ := hE
      rw [hred] at he
      exact ⟨e, he⟩
    · rintro (hn | ⟨j', hj', hb⟩)
      · exact Option.noConfusion hn
      · have hjj := Option.some.inj hj'
        subst hjj
        obtain ⟨e, he⟩ := (validateTasks_err_iff (unwrapTasks j)).2 hb
        exact ⟨e, by rw [hred]; exact he⟩

/-- Counterexample to C6: on the duration `"12x3 hours"` the code concatenates
all digits of the first token (`123` hours, rendered `"3 weeks"`), while the
spec's "leading run of digits" rule gives 12 hours, rendered `"1 days"`. -/
theorem totalTime_digit_extraction_cex :
    calculateTotalTime [mkTaskD "12x3 hours"] = Except.ok "3 weeks" ∧
    specTotalTime [mkTaskD "12x3 hours"] = "1 days" ∧
    ("3 weeks" : String) ≠ "1 days" :=
  ⟨rfl, rfl, by decide⟩

theorem taskHours_eq_fixed (t : Task) : taskHours t = specTaskHoursFixed t := by
  cases t with
  | mk i nm dsc du dep pr del ri stt =>
    cases du with
    | str s =>
      simp only [taskHours, specTaskHoursFixed]
      by_cases h1 : pyContains (pyLower s) "hour" = true
      · have hU : hasUnit (pyLower s) = true := by simp [hasUnit, h1]
        have hm : unitMult (pyLower s) = 1 := by simp [unitMult, h1]
        simp only [h1, hU, if_true, hm, firstTokenDigits]
        cases hsp : pyWsSplit (pyLower s) with
        | nil => rfl
        | cons tok rest =>
          by_cases hds : (tok.filter Char.isDigit).isEmpty = true
          · simp [hds]
          · simp [hds, Nat.mul_one]
      · by_cases h2 : pyContains (pyLower s) "day" = true
        · have hU : hasUnit (pyLower s) = true := by simp [hasUnit, h2]
          have hm : unitMult (pyLower s) = 8 := by simp [unitMult, h1, h2]
          simp only [h1, h2, hU, if_true, hm, firstTokenDigits]
          cases hsp : pyWsSplit (pyLower s) with
          | nil => simp
          | cons tok rest =>
            by_cases hds : (tok.filter Char.isDigit).isEmpty = true
            · simp [hds]
            · simp [hds]
        · by_cases h3 : pyContains (pyLower s) "week" = true
          · have hU : hasUnit (pyLower s) = true := by simp [hasUnit, h3]
            have hm : unitMult (pyLower s) = 40 := by simp [unitMult, h1, h2, h3]
            simp only [h1, h2, h3, hU, if_true, hm, firstTokenDigits]
            cases hsp : pyWsSplit (pyLower s) with
            | nil => simp
            | cons tok rest =>
              by_cases hds : (tok.filter Char.isDigit).isEmpty = true
              · simp [hds]
              · simp [hds]
          · have hU : hasUnit (pyLower s) = false := by
              simp [hasUnit, h1, h2, h3]
            simp [h1, h2, h3, hU]
    | null => rfl
    | bool b => rfl
    | num n => rfl
    | arr xs => rfl
    | obj kvs => rfl

theorem specSumFixed_eq (ts : List Task) : ∀ acc : Nat,
    specSumFixed acc ts = (sumHours ts).map (fun h => acc + h) := by
  induction ts with
  | nil => intro acc; simp [specSumFixed, sumHours, Except.map]
  | cons t ts ih =>
    intro acc
    simp only [specSumFixed, sumHours, ← taskHours_eq_fixed]
    cases h : taskHours t with
    | error e => simp [Except.map]
    | ok hv =>
      simp only []
      rw [ih (acc + hv)]
      cases h2 : sumHours ts with
      | error e => simp [Except.map]
      | ok r => simp [Except.map, Nat.add_assoc]

/-- C6 (amended): `_calculate_total_time` equals the reference algorithm with
"leading run of digits" replaced by "all digit characters of the first
whitespace token, concatenated" (and an error where that token has no digit);
in particular the spec's three worked examples hold. -/
theorem totalTime_matches_fixed_reference :
    (∀ tasks, calculateTotalTime tasks = specTotalTimeFixed tasks) ∧
    calculateTotalTime [mkTaskD "2 hours", mkTaskD "1 day"] = Except.ok "1 days" ∧
    calculateTotalTime [mkTaskD "1 week"] = Except.ok "1 weeks" ∧
    calculateTotalTime [mkTaskD "3 hours"] = Except.ok "3 hours" := by
  refine ⟨fun tasks => ?_, rfl, rfl, rfl⟩
  unfold calculateTotalTime specTotalTimeFixed
  rw [specSumFixed_eq]
  cases h : sumHours tasks with
  | error e => simp [Except.map]
  | ok hv => simp [Except.map]

/-- Counterexample to C7: with no client configured, `generate_plan` returns
the fallback plan but does not append it to the history — the history after
the call is not the history before with the returned plan appended. -/
theorem fallback_not_appended_cex :
    (generate_plan jp0 none env0 st0 "g" "3 weeks" "").2.task_history
      ≠ st0.task_history
          ++ [(generate_plan jp0 none env0 st0 "g" "3 weeks" "").1] := by
  intro h
  have h2 := congrArg List.length h
  rw [show (generate_plan jp0 none env0 st0 "g" "3 weeks" "").2.task_history
      = ([] : List Plan) from rfl] at h2
  rw [show st0.task_history = ([] : List Plan) from rfl] at h2
  simp at h2

/-- C7 (amended): only a fully successful reasoning-path plan is appended — to
both `database` and `task_history`, at the end; on the no-client path and on
any caught failure the fallback plan is returned and the history is unchanged. -/
theorem history_append_characterization (jparse : String → Option Json)
    (client : Option (Except PyErr String)) (env : GenEnv) (st : PlannerState)
    (goal tf ctx : String) :
    (∀ resp p, client = some resp →
      planAttempt jparse resp env goal tf = Except.ok p →
      generate_plan jparse client env st goal tf ctx =
        (p, { database := st.database ++ [p],
              task_history := st.task_history ++ [p] })) ∧
    (∀ resp e, client = some resp →
      planAttempt jparse resp env goal tf = Except.error e →
      generate_plan jparse client env st goal tf ctx
        = (fallbackPlan env goal tf, st)) ∧
    (client = none →
      generate_plan jparse client env st goal tf ctx
        = (fallbackPlan env goal tf, st)) := by
  refine ⟨fun resp p hc hp => ?_, fun resp e hc hp => ?_, fun hc => ?_⟩
  · subst hc
    simp [generate_plan, hp]
  · subst hc
    simp [generate_plan, hp]
  · subst hc
    rfl

/-- Witness for C7 (amended): a fully successful call appends the produced
plan to both history lists. -/
theorem history_append_characterization_w :
    generate_plan jpArr (some (Except.ok "[\x7b\x7d]")) env0 st0 "g" "2 weeks" ""
      = (planW, { database := [planW], task_history := [planW] }) :=
  (history_append_characterization jpArr (some (Except.ok "[\x7b\x7d]")) env0 st0
      "g" "2 weeks" "").1 (Except.ok "[\x7b\x7d]") planW rfl rfl

end STPlanner
